import Mathlib

/-!
Shallow embedding of `src/google/appengine/client/services/port_manager.py`.

Python dicts are modelled as association lists in insertion order
(`List (Int × Int)`): setting an existing key replaces its value in place,
setting a fresh key appends it at the end, and iteration follows the list.
Python `int` is modelled as `Int` (specs such as `"-5:80"` parse to negative
numbers and are only rejected by the explicit range check in `Add`).
Exceptions are modelled by returning the mutated state together with an
`Option AddError`: `PortManager.Add` mutates `used_host_ports` while it
walks the batch, so on error the returned state carries those mutations
while `port_mappings` is only updated on full success, exactly as in the
source.
-/

namespace AppEnginePorts

/-- Pythonic association-list lookup: value of the first entry with key `k`. -/
def pyGet : List (Int × Int) → Int → Option Int
  | [], _ => none
  | (k', v') :: rest, k => if k' = k then some v' else pyGet rest k

/-- Pythonic dict assignment `d[k] = v`: replace the value of an existing key
in place, else append the new entry at the end (insertion order). -/
def pyInsert : List (Int × Int) → Int → Int → List (Int × Int)
  | [], k, v => [(k, v)]
  | (k', v') :: rest, k, v =>
      if k' = k then (k, v) :: rest else (k', v') :: pyInsert rest k v

/-- Pythonic `m.update(t)`: assign every entry of `t` into `m`, in order. -/
def pyUpdate (m t : List (Int × Int)) : List (Int × Int) :=
  t.foldl (fun acc kv => pyInsert acc kv.1 kv.2) m

/-- A list models a Python dict when its keys are distinct. -/
def PyDictWF (m : List (Int × Int)) : Prop := (m.map Prod.fst).Nodup

instance (m : List (Int × Int)) : Decidable (PyDictWF m) := by
  unfold PyDictWF; infer_instance

def isSpaceChar (c : Char) : Bool := c = ' ' || c = '\t' || c = '\n' || c = '\r'

/-- Python `str.strip()` on a character list. -/
def trimChars (l : List Char) : List Char :=
  ((l.dropWhile isSpaceChar).reverse.dropWhile isSpaceChar).reverse

/-- Python `str.split(':')`: cut the character list at every colon. -/
def splitOnColon : List Char → List (List Char)
  | [] => [[]]
  | c :: rest =>
      if c = ':' then [] :: splitOnColon rest
      else
        match splitOnColon rest with
        | [] => [[c]]
        | piece :: pieces => (c :: piece) :: pieces

def digitsOnly (l : List Char) : Bool := !l.isEmpty && l.all (fun c => c.isDigit)

def digitsToNat (l : List Char) : Nat :=
  l.foldl (fun n c => 10 * n + (c.toNat - 48)) 0

/-- Python `int(s)` on a character list: strip surrounding whitespace,
optional sign, then decimal digits; anything else is a `ValueError`,
modelled as `none`. -/
def pyIntChars (l : List Char) : Option Int :=
  match trimChars l with
  | [] => none
  | '+' :: rest => if digitsOnly rest then some (Int.ofNat (digitsToNat rest)) else none
  | '-' :: rest => if digitsOnly rest then some (-(Int.ofNat (digitsToNat rest))) else none
  | l' => if digitsOnly l' then some (Int.ofNat (digitsToNat l')) else none

/-- Modelled from the spec: `vme_constants.DEFAULT_SERVING_PORT` lives in
`vme_constants.py`, which is not under `src/`; the spec fixes the VM serving
port at 8080 (the reserved host set lists "the serving port" alongside 22 and
5000, and the rendering examples use host port 8080 as the serving port). -/
def DEFAULT_SERVING_PORT : Int := 8080

/-- `RESERVED_HOST_PORTS` from the source: 22 (SSH), 5000 (Docker registry),
the serving port, 10000, 10001. -/
def RESERVED_HOST_PORTS : List Int := [22, 5000, DEFAULT_SERVING_PORT, 10000, 10001]

/-- `RESERVED_DOCKER_PORTS` from the source: 22, 5000, 10001. -/
def RESERVED_DOCKER_PORTS : List Int := [22, 5000, 10001]

def DEFAULT_CONTAINER_PORT : Int := DEFAULT_SERVING_PORT

def VM_PORT_FOR_CONTAINER : Int := DEFAULT_SERVING_PORT

/-- The two exception classes raised by `PortManager.Add`. -/
inductive AddError where
  | inconsistent
  | illegal
deriving DecidableEq

/-- The `PortManager` instance state: `used_host_ports` (conflict tracking),
`_port_mappings` (the committed mapping), `container_port`. -/
structure PortManager where
  used_host_ports : List (Int × Int)
  port_mappings : List (Int × Int)
  container_port : Int
deriving DecidableEq

/-- `PortManager.__init__`. -/
def initPortManager (container_port : Int) : PortManager :=
  ⟨[], [], container_port⟩

def defaultPortManager : PortManager := initPortManager DEFAULT_CONTAINER_PORT

/-- Parsing of one spec inside `Add`'s loop: `':' in port` selects the
`host:container` branch, which unpacks `port.split(':')` into exactly two
values and `int(...)`s both (any other shape or parse failure is a
`ValueError`); otherwise `int(port)` is used for both ports. -/
def parsePortSpec (port : String) : Option (Int × Int) :=
  let l := port.toList
  if ':' ∈ l then
    match (splitOnColon l).map (fun piece => pyIntChars piece) with
    | [some host_port, some docker_port] => some (host_port, docker_port)
    | _ => none
  else
    match pyIntChars l with
    | some host_port => some (host_port, host_port)
    | none => none

/-- The conflict test in `Add`:
`host_port in self.used_host_ports and self.used_host_ports[host_port] != docker_port`. -/
def conflictB (used : List (Int × Int)) (host_port docker_port : Int) : Bool :=
  match pyGet used host_port with
  | some prev => prev ≠ docker_port
  | none => false

/-- The four `IllegalPortConfigurationError` checks of `Add`, in source
order: range `[1, 65535]` for both ports, privileged (`< 1024`) docker
port, reserved docker port, reserved host port. -/
def portChecks (host_port docker_port : Int) : Option AddError :=
  if host_port < 1 ∨ host_port > 65535 ∨ docker_port < 1 ∨ docker_port > 65535 then
    some AddError.illegal
  else if docker_port < 1024 then
    some AddError.illegal
  else if docker_port ∈ RESERVED_DOCKER_PORTS then
    some AddError.illegal
  else if host_port ∈ RESERVED_HOST_PORTS then
    some AddError.illegal
  else
    none

/-- One iteration of `Add`'s loop on spec `port`, threading the
`used_host_ports` dict and the local `port_translations` dict.  Mirrors the
source order: a `ValueError` in parsing becomes `IllegalPortConfigurationError`
before any write; otherwise `port_translations[host_port] = docker_port` runs
first, then the conflict check (raising `InconsistentPortConfigurationError`
before `used_host_ports` is written), then `self.used_host_ports[host_port] =
docker_port`, and only then the illegal-port checks. -/
def processSpec (used trans : List (Int × Int)) (port : String) :
    List (Int × Int) × List (Int × Int) × Option AddError :=
  match parsePortSpec port with
  | none => (used, trans, some AddError.illegal)
  | some (host_port, docker_port) =>
      let trans' := pyInsert trans host_port docker_port
      if conflictB used host_port docker_port then
        (used, trans', some AddError.inconsistent)
      else
        (pyInsert used host_port docker_port, trans', portChecks host_port docker_port)

/-- `Add`'s `for port in ports` loop: stops at the first raised exception,
returning the dicts as mutated so far. -/
def addLoop (used trans : List (Int × Int)) :
    List String → List (Int × Int) × List (Int × Int) × Option AddError
  | [] => (used, trans, none)
  | port :: rest =>
      match processSpec used trans port with
      | (used', trans', some e) => (used', trans', some e)
      | (used', trans', none) => addLoop used' trans' rest

/-- `PortManager.Add(ports, kind)` on a list of specs (`kind` only feeds the
error message text, which the model drops).  On an exception the state keeps
every `used_host_ports` write made so far and `_port_mappings` is untouched;
on success `self._port_mappings.update(port_translations)` commits the batch
and `port_translations` is returned. -/
def Add (s : PortManager) (ports : List String) :
    PortManager × List (Int × Int) × Option AddError :=
  match addLoop s.used_host_ports [] ports with
  | (used', trans', some e) =>
      ({ s with used_host_ports := used' }, trans', some e)
  | (used', trans', none) =>
      ({ s with used_host_ports := used',
                port_mappings := pyUpdate s.port_mappings trans' }, trans', none)

/-- `PortManager.GetAllMappedPorts`: `{}` when `_port_mappings` is falsy,
else `self._port_mappings` (the internal dict itself, not a copy). -/
def GetAllMappedPorts (s : PortManager) : List (Int × Int) :=
  if s.port_mappings = [] then [] else s.port_mappings

/-- One `'--publish=%d:%s '` token. -/
def publishToken (kv : Int × Int) : String :=
  "--publish=" ++ toString kv.1 ++ ":" ++ toString kv.2 ++ " "

/-- The dict iterated by `_BuildDockerPublishArgumentString`:
`port_map = self.GetAllMappedPorts()` followed by
`port_map[VM_PORT_FOR_CONTAINER] = int(self.container_port)`. -/
def publishPortMap (s : PortManager) : List (Int × Int) :=
  pyInsert (GetAllMappedPorts s) VM_PORT_FOR_CONTAINER s.container_port

/-- The `result += '--publish=%d:%s ' % (k, v)` accumulation loop. -/
def buildPublishString (port_map : List (Int × Int)) : String :=
  port_map.foldl (fun result kv => result ++ publishToken kv) ""

/-- `PortManager._BuildDockerPublishArgumentString`.  When `_port_mappings`
is non-empty, `GetAllMappedPorts` returns the internal dict itself, so the
`port_map[VM_PORT_FOR_CONTAINER] = ...` assignment writes through into
`self._port_mappings`; the model returns the post-call state alongside the
string to capture that aliasing. -/
def BuildDockerPublishArgumentString (s : PortManager) : PortManager × String :=
  let s' := if s.port_mappings = [] then s else { s with port_mappings := publishPortMap s }
  (s', buildPublishString (publishPortMap s))

structure MetadataItem where
  key : String
  value : String
deriving DecidableEq

structure Metadata where
  items : List MetadataItem
deriving DecidableEq

structure VmParams where
  metadata : Metadata
deriving DecidableEq

structure ReplicaTemplate where
  vmParams : VmParams
deriving DecidableEq

structure ReplicaPoolParams where
  template : ReplicaTemplate
deriving DecidableEq

/-- `PortManager.GetReplicaPoolParameters`: wraps the publish string into
`{'template': {'vmParams': {'metadata': {'items': [{'key': 'gae_publish_ports',
'value': publish_ports}]}}}}`. -/
def GetReplicaPoolParameters (s : PortManager) : PortManager × ReplicaPoolParams :=
  let r := BuildDockerPublishArgumentString s
  (r.1, ⟨⟨⟨⟨[⟨"gae_publish_ports", r.2⟩]⟩⟩⟩⟩)

/-- The per-entry invariant claimed for committed mappings: both ports in
`[1, 65535]`, container port unprivileged and not docker-reserved, host
port not host-reserved. -/
def ValidEntry (kv : Int × Int) : Prop :=
  1 ≤ kv.1 ∧ kv.1 ≤ 65535 ∧ 1 ≤ kv.2 ∧ kv.2 ≤ 65535 ∧
  1024 ≤ kv.2 ∧ kv.2 ∉ RESERVED_DOCKER_PORTS ∧ kv.1 ∉ RESERVED_HOST_PORTS

instance (kv : Int × Int) : Decidable (ValidEntry kv) := by
  unfold ValidEntry; infer_instance

/-- One observable operation on a `PortManager`, for stating invariants over
call sequences. -/
inductive PMOp where
  | add (ports : List String)
  | allMappings
  | renderPublish
  | renderDeployment

/-- The state transition of one operation (`GetAllMappedPorts` reads only;
both render operations go through `_BuildDockerPublishArgumentString`). -/
def applyOp (s : PortManager) : PMOp → PortManager
  | PMOp.add ports => (Add s ports).1
  | PMOp.allMappings => s
  | PMOp.renderPublish => (BuildDockerPublishArgumentString s).1
  | PMOp.renderDeployment => (GetReplicaPoolParameters s).1

/-- A sequence of calls, applied in order. -/
def runOps (s : PortManager) (ops : List PMOp) : PortManager := ops.foldl applyOp s

/-! ### Association-list (Python dict) lemmas -/

theorem pyInsert_ne_nil (m : List (Int × Int)) (k v : Int) : pyInsert m k v ≠ [] := by
  cases m with
  | nil => simp [pyInsert]
  | cons kv rest =>
      obtain ⟨k', v'⟩ := kv
      by_cases h : k' = k <;> simp [pyInsert, h]

theorem pyGet_insert_self (m : List (Int × Int)) (k v : Int) :
    pyGet (pyInsert m k v) k = some v := by
  induction m with
  | nil => simp [pyInsert, pyGet]
  | cons kv rest ih =>
      obtain ⟨k', v'⟩ := kv
      by_cases h : k' = k
      · simp [pyInsert, h, pyGet]
      · simp [pyInsert, h, pyGet, ih]

theorem pyInsert_of_get (m : List (Int × Int)) (k v : Int) (h : pyGet m k = some v) :
    pyInsert m k v = m := by
  induction m with
  | nil => simp [pyGet] at h
  | cons kv rest ih =>
      obtain ⟨k', v'⟩ := kv
      by_cases hk : k' = k
      · subst hk
        simp [pyGet] at h
        simp [pyInsert, h]
      · simp [pyGet, hk] at h
        simp [pyInsert, hk, ih h]

theorem pyInsert_idem (m : List (Int × Int)) (k v : Int) :
    pyInsert (pyInsert m k v) k v = pyInsert m k v :=
  pyInsert_of_get _ _ _ (pyGet_insert_self m k v)

theorem mem_pyInsert (m : List (Int × Int)) (k v : Int) (kv : Int × Int)
    (h : kv ∈ pyInsert m k v) : kv = (k, v) ∨ kv ∈ m := by
  induction m with
  | nil => simp [pyInsert] at h; simp [h]
  | cons kv' rest ih =>
      obtain ⟨k', v'⟩ := kv'
      by_cases hk : k' = k
      · simp [pyInsert, hk] at h
        rcases h with h | h
        · left; simp [h]
        · right; simp [h]
      · simp [pyInsert, hk] at h
        rcases h with h | h
        · right; simp [h]
        · rcases ih h with h' | h'
          · left; exact h'
          · right; simp [h']

theorem mem_pyInsert_of_ne (m : List (Int × Int)) (k v : Int) (kv : Int × Int)
    (hm : kv ∈ m) (hne : kv.1 ≠ k) : kv ∈ pyInsert m k v := by
  induction m with
  | nil => simp at hm
  | cons kv' rest ih =>
      obtain ⟨k', v'⟩ := kv'
      by_cases hk : k' = k
      · simp [pyInsert, hk]
        rcases List.mem_cons.mp hm with h | h
        · exact absurd (by simp [h, hk] : kv.1 = k) hne
        · right; exact h
      · simp [pyInsert, hk]
        rcases List.mem_cons.mp hm with h | h
        · left; simp [h]
        · right; exact ih h

theorem pyInsert_forall {P : Int × Int → Prop} (m : List (Int × Int)) (k v : Int)
    (hm : ∀ kv ∈ m, P kv) (hkv : P (k, v)) : ∀ kv ∈ pyInsert m k v, P kv := by
  intro kv h
  rcases mem_pyInsert m k v kv h with h' | h'
  · rw [h']; exact hkv
  · exact hm kv h'

theorem pyUpdate_forall {P : Int × Int → Prop} :
    ∀ (t m : List (Int × Int)), (∀ kv ∈ m, P kv) → (∀ kv ∈ t, P kv) →
      ∀ kv ∈ pyUpdate m t, P kv := by
  intro t
  induction t with
  | nil => intro m hm _; simpa [pyUpdate] using hm
  | cons a t ih =>
      intro m hm ht
      have hstep : ∀ kv ∈ pyInsert m a.1 a.2, P kv :=
        pyInsert_forall m a.1 a.2 hm (by simpa using ht a (by simp))
      have := ih (pyInsert m a.1 a.2) hstep (fun kv h => ht kv (by simp [h]))
      simpa [pyUpdate] using this

theorem pyUpdate_single (m : List (Int × Int)) (k v : Int) :
    pyUpdate m [(k, v)] = pyInsert m k v := rfl

theorem not_mem_pyInsert_wf (m : List (Int × Int)) (k v v' : Int)
    (hwf : PyDictWF m) (hne : v ≠ v') : (k, v) ∉ pyInsert m k v' := by
  induction m with
  | nil =>
      simp [pyInsert]
      exact fun h => absurd h hne
  | cons kv rest ih =>
      obtain ⟨k', w⟩ := kv
      have hnd := hwf
      rw [PyDictWF, List.map_cons, List.nodup_cons] at hnd
      by_cases hk : k' = k
      · subst hk
        intro h
        simp [pyInsert] at h
        rcases h with hv | h
        · exact hne hv
        · exact hnd.1 (by simpa using List.mem_map_of_mem Prod.fst h)
      · intro h
        simp [pyInsert, hk] at h
        rcases h with ⟨hkk, _⟩ | h
        · exact hk hkk.symm
        · exact ih hnd.2 h

theorem pyGet_some_ne_nil (m : List (Int × Int)) (k v : Int)
    (h : pyGet m k = some v) : m ≠ [] := by
  intro hnil; rw [hnil] at h; simp [pyGet] at h

/-! ### `processSpec` / `Add` characterization lemmas -/

theorem processSpec_parse_none (used trans : List (Int × Int)) (p : String)
    (h : parsePortSpec p = none) :
    processSpec used trans p = (used, trans, some AddError.illegal) := by
  unfold processSpec; rw [h]

theorem processSpec_conflict (used trans : List (Int × Int)) (p : String) (hp dp : Int)
    (h : parsePortSpec p = some (hp, dp)) (hc : conflictB used hp dp = true) :
    processSpec used trans p = (used, pyInsert trans hp dp, some AddError.inconsistent) := by
  unfold processSpec; rw [h]; simp [hc]

theorem processSpec_ok (used trans : List (Int × Int)) (p : String) (hp dp : Int)
    (h : parsePortSpec p = some (hp, dp)) (hc : conflictB used hp dp = false) :
    processSpec used trans p = (pyInsert used hp dp, pyInsert trans hp dp, portChecks hp dp) := by
  unfold processSpec; rw [h]; simp [hc]

theorem processSpec_none_inv (used trans u1 t1 : List (Int × Int)) (p : String)
    (h : processSpec used trans p = (u1, t1, none)) :
    ∃ hp dp, parsePortSpec p = some (hp, dp) ∧ conflictB used hp dp = false ∧
      portChecks hp dp = none ∧ u1 = pyInsert used hp dp ∧ t1 = pyInsert trans hp dp := by
  unfold processSpec at h
  rcases hps : parsePortSpec p with _ | ⟨hp, dp⟩
  · rw [hps] at h; simp at h
  · rw [hps] at h
    by_cases hc : conflictB used hp dp
    · simp [hc] at h
    · simp only [Bool.not_eq_true] at hc
      simp [hc] at h
      exact ⟨hp, dp, rfl, hc, h.2.2, h.1.symm, h.2.1.symm⟩

theorem conflictB_false_of_get (used : List (Int × Int)) (hp c : Int)
    (h : pyGet used hp = none ∨ pyGet used hp = some c) :
    conflictB used hp c = false := by
  rcases h with h | h <;> simp [conflictB, h]

theorem conflictB_true_of_get (used : List (Int × Int)) (hp c c' : Int)
    (h : pyGet used hp = some c) (hne : c ≠ c') : conflictB used hp c' = true := by
  simp [conflictB, h, hne]

theorem validEntry_of_portChecks (hp dp : Int) (h : portChecks hp dp = none) :
    ValidEntry (hp, dp) := by
  unfold portChecks at h
  split at h
  · simp at h
  · split at h
    · simp at h
    · split at h
      · simp at h
      · split at h
        · simp at h
        · rename_i h1 h2 h3 h4
          unfold ValidEntry
          dsimp only
          exact ⟨by omega, by omega, by omega, by omega, by omega, h3, h4⟩

theorem portChecks_some_of_range (hp dp : Int)
    (h : hp < 1 ∨ hp > 65535 ∨ dp < 1 ∨ dp > 65535) :
    portChecks hp dp = some AddError.illegal := by
  unfold portChecks; rw [if_pos h]

theorem add_error_keeps_mappings (s : PortManager) (ports : List String) (e : AddError)
    (h : (Add s ports).2.2 = some e) :
    (Add s ports).1.port_mappings = s.port_mappings := by
  unfold Add
  rcases hl : addLoop s.used_host_ports [] ports with ⟨u', t', e'⟩
  cases e' with
  | none =>
      exfalso
      unfold Add at h
      rw [hl] at h
      simp at h
  | some e'' => rfl

theorem getAllMappedPorts_congr (s t : PortManager)
    (h : s.port_mappings = t.port_mappings) :
    GetAllMappedPorts s = GetAllMappedPorts t := by
  unfold GetAllMappedPorts; rw [h]

theorem mem_getAllMappedPorts (s : PortManager) (kv : Int × Int) :
    kv ∈ GetAllMappedPorts s ↔ kv ∈ s.port_mappings := by
  unfold GetAllMappedPorts
  by_cases h : s.port_mappings = [] <;> simp [h]

theorem addLoop_valid :
    ∀ (ports : List String) (used trans used' trans' : List (Int × Int)),
      (∀ kv ∈ trans, ValidEntry kv) →
      addLoop used trans ports = (used', trans', none) →
      ∀ kv ∈ trans', ValidEntry kv := by
  intro ports
  induction ports with
  | nil =>
      intro used trans used' trans' hP heq
      simp [addLoop] at heq
      obtain ⟨h1, h2⟩ := heq
      rw [← h2]
      exact hP
  | cons p rest ih =>
      intro used trans used' trans' hP heq
      rw [addLoop] at heq
      rcases hps : processSpec used trans p with ⟨u1, t1, e1⟩
      rw [hps] at heq
      cases e1 with
      | some e => simp at heq
      | none =>
          obtain ⟨hp, dp, _, _, hchk, _, ht1⟩ := processSpec_none_inv used trans u1 t1 p hps
          have ht1P : ∀ kv ∈ t1, ValidEntry kv := by
            rw [ht1]
            exact pyInsert_forall trans hp dp hP (validEntry_of_portChecks hp dp hchk)
          exact ih u1 t1 used' trans' ht1P heq

theorem str_append_empty (s : String) : s ++ "" = s := by
  apply String.ext
  simp [String.data_append]

theorem str_append_assoc (a b c : String) : a ++ b ++ c = a ++ (b ++ c) := by
  apply String.ext
  simp [String.data_append]

theorem str_join_cons (a : String) (l : List String) :
    String.join (a :: l) = a ++ String.join l := by
  apply String.ext
  simp [String.data_join, String.data_append]

theorem foldl_publish (l : List (Int × Int)) :
    ∀ r : String, l.foldl (fun result kv => result ++ publishToken kv) r =
      r ++ String.join (l.map publishToken) := by
  induction l with
  | nil => intro r; simp [String.join, str_append_empty]
  | cons a l ih =>
      intro r
      simp only [List.foldl_cons, List.map_cons, ih, str_join_cons]
      rw [str_append_assoc]

theorem addLoop_single (used trans : List (Int × Int)) (p : String) :
    addLoop used trans [p] = processSpec used trans p := by
  rw [addLoop]
  rcases h : processSpec used trans p with ⟨u', t', e'⟩
  cases e' <;> simp [addLoop]

theorem addLoop_cons_ok (used trans u1 t1 : List (Int × Int)) (p : String)
    (rest : List String) (h : processSpec used trans p = (u1, t1, none)) :
    addLoop used trans (p :: rest) = addLoop u1 t1 rest := by
  rw [addLoop, h]

theorem Add_single_eq (s : PortManager) (p : String) :
    Add s [p] =
      match processSpec s.used_host_ports [] p with
      | (u', t', some e) => ({ s with used_host_ports := u' }, t', some e)
      | (u', t', none) =>
          ({ s with used_host_ports := u',
                    port_mappings := pyUpdate s.port_mappings t' }, t', none) := by
  unfold Add
  rw [addLoop_single]

theorem pyUpdate_insert_nil (m : List (Int × Int)) (k v : Int) :
    pyUpdate m (pyInsert [] k v) = pyInsert m k v := rfl

/-! ### Claim theorems -/

/-- C1 counterexample: rendering is NOT side-effect-free.  After committing
`9000:9001`, calling `_BuildDockerPublishArgumentString` changes what
`GetAllMappedPorts` returns (the synthetic serving-port entry is written
through the aliased internal dict). -/
theorem c1_counterexample :
    GetAllMappedPorts
        (BuildDockerPublishArgumentString (Add defaultPortManager ["9000:9001"]).1).1 ≠
      GetAllMappedPorts (Add defaultPortManager ["9000:9001"]).1 := by decide

/-- C1 (amended): rendering leaves the committed mapping unchanged only when
it is empty; when non-empty, `GetAllMappedPorts` returns the internal dict
itself, so the render's `port_map[VM_PORT_FOR_CONTAINER] = container_port`
assignment writes the synthetic serving-port entry into the committed state,
and a subsequent `GetAllMappedPorts` returns the prior mapping with that
entry inserted.  `GetReplicaPoolParameters` leaves the state exactly as
`_BuildDockerPublishArgumentString` does. -/
theorem c1_amended_render_state_effect : ∀ s : PortManager,
    (s.port_mappings = [] →
      GetAllMappedPorts (BuildDockerPublishArgumentString s).1 = GetAllMappedPorts s) ∧
    (s.port_mappings ≠ [] →
      GetAllMappedPorts (BuildDockerPublishArgumentString s).1 =
        pyInsert (GetAllMappedPorts s) VM_PORT_FOR_CONTAINER s.container_port) ∧
    (GetReplicaPoolParameters s).1 = (BuildDockerPublishArgumentString s).1 := by
  intro s
  refine ⟨?_, ?_, rfl⟩
  · intro h
    unfold BuildDockerPublishArgumentString
    rw [if_pos h]
  · intro h
    unfold BuildDockerPublishArgumentString
    rw [if_neg h]
    show GetAllMappedPorts ⟨s.used_host_ports, publishPortMap s, s.container_port⟩ = _
    unfold GetAllMappedPorts
    rw [if_neg (show publishPortMap s ≠ [] from pyInsert_ne_nil _ _ _)]
    rfl

/-- C1 witness: the non-empty branch of the amended statement at a concrete
state. -/
theorem c1_amended_witness :
    GetAllMappedPorts
        (BuildDockerPublishArgumentString (Add defaultPortManager ["9000:9001"]).1).1 =
      pyInsert (GetAllMappedPorts (Add defaultPortManager ["9000:9001"]).1)
        VM_PORT_FOR_CONTAINER (Add defaultPortManager ["9000:9001"]).1.container_port :=
  (c1_amended_render_state_effect (Add defaultPortManager ["9000:9001"]).1).2.1 (by decide)

/-- C2: batch commitment is all-or-nothing for the committed mapping.  If
`Add` raises, `GetAllMappedPorts` afterwards returns exactly what it returned
before the call (the commit `self._port_mappings.update(...)` only runs after
the whole batch validated). -/
theorem c2_batch_atomic_committed : ∀ (s : PortManager) (ports : List String) (e : AddError),
    (Add s ports).2.2 = some e →
    GetAllMappedPorts (Add s ports).1 = GetAllMappedPorts s := by
  intro s ports e h
  exact getAllMappedPorts_congr _ _ (add_error_keeps_mappings s ports e h)

/-- C2 witness: the spec's own example batch, one valid and one invalid spec. -/
theorem c2_witness :
    (Add defaultPortManager ["8000:8000", "22:22"]).2.2 = some AddError.illegal ∧
    GetAllMappedPorts (Add defaultPortManager ["8000:8000", "22:22"]).1 =
      GetAllMappedPorts defaultPortManager :=
  ⟨by decide, c2_batch_atomic_committed _ _ AddError.illegal (by decide)⟩

/-- C3 counterexample: an out-of-range spec does raise
`IllegalPortConfigurationError`, but it does NOT leave every state component
unchanged: `used_host_ports` records the pair before the range check runs. -/
theorem c3_counterexample :
    (Add defaultPortManager ["70000:70000"]).2.2 = some AddError.illegal ∧
    (Add defaultPortManager ["70000:70000"]).1.used_host_ports ≠
      defaultPortManager.used_host_ports :=
  ⟨by decide, by decide⟩

/-- C3 (amended): a spec that fails to parse raises
`IllegalPortConfigurationError` and changes nothing at all; a spec that
parses to an out-of-range pair `(hp, dp)` leaves the committed mapping
unchanged but first records `hp → dp` in `used_host_ports`, raising
`IllegalPortConfigurationError` when `used_host_ports` holds no conflicting
entry for `hp` and `InconsistentPortConfigurationError` (before recording)
when it does. -/
theorem c3_amended_illegal_spec_effect : ∀ (s : PortManager) (p : String),
    (parsePortSpec p = none → Add s [p] = (s, [], some AddError.illegal)) ∧
    (∀ hp dp : Int, parsePortSpec p = some (hp, dp) →
      (hp < 1 ∨ hp > 65535 ∨ dp < 1 ∨ dp > 65535) →
      (conflictB s.used_host_ports hp dp = false →
        Add s [p] = ({ s with used_host_ports := pyInsert s.used_host_ports hp dp },
          pyInsert [] hp dp, some AddError.illegal)) ∧
      (conflictB s.used_host_ports hp dp = true →
        Add s [p] = (s, pyInsert [] hp dp, some AddError.inconsistent))) := by
  intro s p
  constructor
  · intro h
    rw [Add_single_eq, processSpec_parse_none _ _ _ h]
  · intro hp dp hparse hrange
    constructor
    · intro hc
      rw [Add_single_eq, processSpec_ok _ _ _ _ _ hparse hc,
        portChecks_some_of_range _ _ hrange]
    · intro hc
      rw [Add_single_eq, processSpec_conflict _ _ _ _ _ hparse hc]

/-- C3 witness: the amended statement at the out-of-range spec
`"70000:70000"` on a fresh manager. -/
theorem c3_witness :
    Add defaultPortManager ["70000:70000"] =
      ({ defaultPortManager with used_host_ports := [(70000, 70000)] },
        [(70000, 70000)], some AddError.illegal) :=
  ((c3_amended_illegal_spec_effect defaultPortManager "70000:70000").2 70000 70000
    (by decide) (by omega)).1 (by decide)

/-- C4 counterexample: when `"h:c1"` and `"h:c2"` sit in the SAME batch,
`Add` raises `InconsistentPortConfigurationError` but commits nothing, so
`AllMappings` does not map `h` to `c1` afterwards, contradicting the claim's
same-batch clause. -/
theorem c4_counterexample :
    (Add defaultPortManager ["9000:9001", "9000:9002"]).2.2 = some AddError.inconsistent ∧
    pyGet (GetAllMappedPorts (Add defaultPortManager ["9000:9001", "9000:9002"]).1) 9000 ≠
      some 9001 :=
  ⟨by decide, by decide⟩

/-- C4 (amended): for a host port `hp` fresh in `used_host_ports`, adding
`"hp:c1"` in one batch succeeds; adding `"hp:c2"` with `c2 ≠ c1` in a LATER
batch raises `InconsistentPortConfigurationError` and `AllMappings` still
maps `hp` to `c1`; when the two specs sit in the SAME batch, `Add` raises
`InconsistentPortConfigurationError` and commits nothing, so `AllMappings`
is unchanged from before the batch. -/
theorem c4_amended_conflict_behavior : ∀ (s : PortManager) (p1 p2 : String) (hp c1 c2 : Int),
    parsePortSpec p1 = some (hp, c1) →
    parsePortSpec p2 = some (hp, c2) →
    portChecks hp c1 = none →
    portChecks hp c2 = none →
    c1 ≠ c2 →
    pyGet s.used_host_ports hp = none →
    ((Add s [p1]).2.2 = none ∧
     (Add (Add s [p1]).1 [p2]).2.2 = some AddError.inconsistent ∧
     pyGet (GetAllMappedPorts (Add (Add s [p1]).1 [p2]).1) hp = some c1 ∧
     (Add s [p1, p2]).2.2 = some AddError.inconsistent ∧
     GetAllMappedPorts (Add s [p1, p2]).1 = GetAllMappedPorts s) := by
  intro s p1 p2 hp c1 c2 hP1 hP2 hChk1 _hChk2 hne hget
  have hc1 : conflictB s.used_host_ports hp c1 = false :=
    conflictB_false_of_get _ _ _ (Or.inl hget)
  have e1 : processSpec s.used_host_ports [] p1 =
      (pyInsert s.used_host_ports hp c1, pyInsert [] hp c1, none) := by
    rw [processSpec_ok _ _ _ _ _ hP1 hc1, hChk1]
  have hAdd1 : Add s [p1] =
      ({ s with used_host_ports := pyInsert s.used_host_ports hp c1,
                port_mappings := pyUpdate s.port_mappings (pyInsert [] hp c1) },
        pyInsert [] hp c1, none) := by
    rw [Add_single_eq, e1]
  have hc2 : conflictB (pyInsert s.used_host_ports hp c1) hp c2 = true :=
    conflictB_true_of_get _ _ _ _ (pyGet_insert_self _ _ _) hne
  have e2 : ∀ trans : List (Int × Int),
      processSpec (pyInsert s.used_host_ports hp c1) trans p2 =
        (pyInsert s.used_host_ports hp c1, pyInsert trans hp c2, some AddError.inconsistent) :=
    fun trans => processSpec_conflict _ _ _ _ _ hP2 hc2
  have hAdd2 : Add (Add s [p1]).1 [p2] =
      ((Add s [p1]).1, pyInsert [] hp c2, some AddError.inconsistent) := by
    rw [hAdd1, Add_single_eq, e2]
  have hBatch : Add s [p1, p2] =
      ({ s with used_host_ports := pyInsert s.used_host_ports hp c1 },
        pyInsert (pyInsert [] hp c1) hp c2, some AddError.inconsistent) := by
    unfold Add
    rw [addLoop_cons_ok _ _ _ _ _ _ e1, addLoop_single, e2]
  refine ⟨by rw [hAdd1], by rw [hAdd2], ?_, by rw [hBatch],
    by rw [hBatch]; exact getAllMappedPorts_congr _ _ rfl⟩
  rw [hAdd2]
  show pyGet (GetAllMappedPorts (Add s [p1]).1) hp = some c1
  rw [hAdd1]
  show pyGet (GetAllMappedPorts
    ⟨pyInsert s.used_host_ports hp c1,
      pyUpdate s.port_mappings (pyInsert [] hp c1), s.container_port⟩) hp = some c1
  unfold GetAllMappedPorts
  rw [pyUpdate_insert_nil]
  rw [if_neg (pyInsert_ne_nil _ _ _)]
  exact pyGet_insert_self _ _ _

/-- C4 witness: the amended statement at `9000:9001` / `9000:9002` on a
fresh manager. -/
theorem c4_witness :
    (Add defaultPortManager ["9000:9001"]).2.2 = none ∧
    (Add (Add defaultPortManager ["9000:9001"]).1 ["9000:9002"]).2.2 =
      some AddError.inconsistent ∧
    pyGet (GetAllMappedPorts
        (Add (Add defaultPortManager ["9000:9001"]).1 ["9000:9002"]).1) 9000 = some 9001 ∧
    (Add defaultPortManager ["9000:9001", "9000:9002"]).2.2 = some AddError.inconsistent ∧
    GetAllMappedPorts (Add defaultPortManager ["9000:9001", "9000:9002"]).1 =
      GetAllMappedPorts defaultPortManager :=
  c4_amended_conflict_behavior defaultPortManager "9000:9001" "9000:9002" 9000 9001 9002
    (by decide) (by decide) (by decide) (by decide) (by decide) (by decide)

/-- C5: adding the same valid spec twice — inside one batch or across two
batches — is idempotent: the repeated addition succeeds and the committed
mapping is identical to the mapping after the first addition. -/
theorem c5_idempotent_add : ∀ (s : PortManager) (p : String) (hp c : Int),
    parsePortSpec p = some (hp, c) →
    portChecks hp c = none →
    (pyGet s.used_host_ports hp = none ∨ pyGet s.used_host_ports hp = some c) →
    ((Add s [p]).2.2 = none ∧
     pyGet (GetAllMappedPorts (Add s [p]).1) hp = some c ∧
     (Add s [p, p]).2.2 = none ∧
     GetAllMappedPorts (Add s [p, p]).1 = GetAllMappedPorts (Add s [p]).1 ∧
     (Add (Add s [p]).1 [p]).2.2 = none ∧
     GetAllMappedPorts (Add (Add s [p]).1 [p]).1 = GetAllMappedPorts (Add s [p]).1) := by
  intro s p hp c hparse hchk hget
  have hc0 : conflictB s.used_host_ports hp c = false := conflictB_false_of_get _ _ _ hget
  have e1 : processSpec s.used_host_ports [] p =
      (pyInsert s.used_host_ports hp c, pyInsert [] hp c, none) := by
    rw [processSpec_ok _ _ _ _ _ hparse hc0, hchk]
  have hAdd1 : Add s [p] =
      ({ s with used_host_ports := pyInsert s.used_host_ports hp c,
                port_mappings := pyUpdate s.port_mappings (pyInsert [] hp c) },
        pyInsert [] hp c, none) := by
    rw [Add_single_eq, e1]
  have hcU : conflictB (pyInsert s.used_host_ports hp c) hp c = false :=
    conflictB_false_of_get _ _ _ (Or.inr (pyGet_insert_self _ _ _))
  have e2 : ∀ trans : List (Int × Int),
      processSpec (pyInsert s.used_host_ports hp c) trans p =
        (pyInsert s.used_host_ports hp c, pyInsert trans hp c, none) := by
    intro trans
    rw [processSpec_ok _ _ _ _ _ hparse hcU, hchk, pyInsert_idem]
  have hBatch : Add s [p, p] =
      ({ s with used_host_ports := pyInsert s.used_host_ports hp c,
                port_mappings := pyUpdate s.port_mappings
                  (pyInsert (pyInsert [] hp c) hp c) },
        pyInsert (pyInsert [] hp c) hp c, none) := by
    unfold Add
    rw [addLoop_cons_ok _ _ _ _ _ _ e1, addLoop_single, e2]
  have hAdd2 : Add (Add s [p]).1 [p] =
      ({ s with used_host_ports := pyInsert s.used_host_ports hp c,
                port_mappings := pyUpdate
                  (pyUpdate s.port_mappings (pyInsert [] hp c)) (pyInsert [] hp c) },
        pyInsert [] hp c, none) := by
    rw [hAdd1, Add_single_eq, e2]
  refine ⟨by rw [hAdd1], ?_, by rw [hBatch], ?_, by rw [hAdd2], ?_⟩
  · rw [hAdd1]
    show pyGet (GetAllMappedPorts
      ⟨pyInsert s.used_host_ports hp c,
        pyUpdate s.port_mappings (pyInsert [] hp c), s.container_port⟩) hp = some c
    unfold GetAllMappedPorts
    rw [pyUpdate_insert_nil, if_neg (pyInsert_ne_nil _ _ _)]
    exact pyGet_insert_self _ _ _
  · rw [hBatch, hAdd1]
    apply getAllMappedPorts_congr
    show pyUpdate s.port_mappings (pyInsert (pyInsert [] hp c) hp c) =
      pyUpdate s.port_mappings (pyInsert [] hp c)
    rw [pyInsert_idem]
  · rw [hAdd2, hAdd1]
    apply getAllMappedPorts_congr
    show pyUpdate (pyUpdate s.port_mappings (pyInsert [] hp c)) (pyInsert [] hp c) =
      pyUpdate s.port_mappings (pyInsert [] hp c)
    rw [pyUpdate_insert_nil, pyUpdate_insert_nil, pyInsert_idem]

/-- C5 witness: the idempotency statement at the concrete spec `"9000:9001"`
on a fresh manager. -/
theorem c5_witness :
    (Add defaultPortManager ["9000:9001"]).2.2 = none ∧
    pyGet (GetAllMappedPorts (Add defaultPortManager ["9000:9001"]).1) 9000 = some 9001 ∧
    (Add defaultPortManager ["9000:9001", "9000:9001"]).2.2 = none ∧
    GetAllMappedPorts (Add defaultPortManager ["9000:9001", "9000:9001"]).1 =
      GetAllMappedPorts (Add defaultPortManager ["9000:9001"]).1 ∧
    (Add (Add defaultPortManager ["9000:9001"]).1 ["9000:9001"]).2.2 = none ∧
    GetAllMappedPorts (Add (Add defaultPortManager ["9000:9001"]).1 ["9000:9001"]).1 =
      GetAllMappedPorts (Add defaultPortManager ["9000:9001"]).1 :=
  c5_idempotent_add defaultPortManager "9000:9001" 9000 9001
    (by decide) (by decide) (by decide)

theorem render_state_preserves {P : Int × Int → Prop} (s : PortManager)
    (h : ∀ kv ∈ s.port_mappings, P kv)
    (hserv : P (VM_PORT_FOR_CONTAINER, s.container_port)) :
    ∀ kv ∈ (BuildDockerPublishArgumentString s).1.port_mappings, P kv := by
  unfold BuildDockerPublishArgumentString
  by_cases hnil : s.port_mappings = []
  · rw [if_pos hnil]; exact h
  · rw [if_neg hnil]
    intro kv hkv
    rcases mem_pyInsert _ _ _ kv hkv with heq | hm
    · rw [heq]; exact hserv
    · exact h kv ((mem_getAllMappedPorts s kv).mp hm)

theorem render_container_port (s : PortManager) :
    (BuildDockerPublishArgumentString s).1.container_port = s.container_port := by
  unfold BuildDockerPublishArgumentString
  by_cases hnil : s.port_mappings = []
  · rw [if_pos hnil]
  · rw [if_neg hnil]

theorem applyOp_container_port (s : PortManager) (op : PMOp) :
    (applyOp s op).container_port = s.container_port := by
  cases op with
  | add ports =>
      show (Add s ports).1.container_port = s.container_port
      unfold Add
      rcases hl : addLoop s.used_host_ports [] ports with ⟨u', t', e'⟩
      cases e' <;> rfl
  | allMappings => rfl
  | renderPublish => exact render_container_port s
  | renderDeployment => exact render_container_port s

theorem applyOp_preserves (s : PortManager) (op : PMOp) (cp : Int)
    (hcp : s.container_port = cp)
    (h : ∀ kv ∈ s.port_mappings, kv = (VM_PORT_FOR_CONTAINER, cp) ∨ ValidEntry kv) :
    ∀ kv ∈ (applyOp s op).port_mappings,
      kv = (VM_PORT_FOR_CONTAINER, cp) ∨ ValidEntry kv := by
  cases op with
  | add ports =>
      show ∀ kv ∈ (Add s ports).1.port_mappings, _
      unfold Add
      rcases hl : addLoop s.used_host_ports [] ports with ⟨u', t', e'⟩
      cases e' with
      | some e => exact h
      | none =>
          have ht' : ∀ kv ∈ t', ValidEntry kv :=
            addLoop_valid ports s.used_host_ports [] u' t' (by simp) hl
          exact pyUpdate_forall t' s.port_mappings h (fun kv hk => Or.inr (ht' kv hk))
  | allMappings => exact h
  | renderPublish => exact render_state_preserves s h (Or.inl (by rw [hcp]))
  | renderDeployment => exact render_state_preserves s h (Or.inl (by rw [hcp]))

theorem runOps_valid : ∀ (ops : List PMOp) (s : PortManager) (cp : Int),
    s.container_port = cp →
    (∀ kv ∈ s.port_mappings, kv = (VM_PORT_FOR_CONTAINER, cp) ∨ ValidEntry kv) →
    ∀ kv ∈ (runOps s ops).port_mappings,
      kv = (VM_PORT_FOR_CONTAINER, cp) ∨ ValidEntry kv := by
  intro ops
  induction ops with
  | nil => intro s cp _ h; simpa [runOps] using h
  | cons op rest ih =>
      intro s cp hcp h
      have hcp' : (applyOp s op).container_port = cp := by
        rw [applyOp_container_port, hcp]
      have := ih (applyOp s op) cp hcp' (applyOp_preserves s op cp hcp h)
      simpa [runOps] using this

theorem add_translations_valid (s : PortManager) (ports : List String)
    (h : (Add s ports).2.2 = none) : ∀ kv ∈ (Add s ports).2.1, ValidEntry kv := by
  unfold Add
  rcases hl : addLoop s.used_host_ports [] ports with ⟨u', t', e'⟩
  cases e' with
  | some e =>
      exfalso
      unfold Add at h
      rw [hl] at h
      simp at h
  | none => exact addLoop_valid ports s.used_host_ports [] u' t' (by simp) hl

/-- C6 counterexample: the claimed invariant is violated after a rendering
call.  Starting from a fresh manager, committing `9000:9001` and then
rendering leaves the synthetic entry `(8080, 8080)` in the committed
mapping, whose host port 8080 is a member of `RESERVED_HOST_PORTS`. -/
theorem c6_counterexample :
    (8080, 8080) ∈ GetAllMappedPorts
      (runOps defaultPortManager [PMOp.add ["9000:9001"], PMOp.renderPublish]) ∧
    ¬ ValidEntry (8080, 8080) :=
  ⟨by decide, by decide⟩

/-- C6 (amended): after any sequence of `Add`, `GetAllMappedPorts` and
rendering calls starting from a `PortManager` freshly constructed with
container port `cp`, every committed entry either IS the synthetic
serving-port entry `(VM_PORT_FOR_CONTAINER, cp)` (host port 8080, container
side the construction-time container port, written through by the rendering
aliasing) or satisfies the full invariant: both ports in `[1, 65535]`,
container port `≥ 1024` and not in `RESERVED_DOCKER_PORTS`, host port not in
`RESERVED_HOST_PORTS`.  Moreover the entries committed by an `Add` batch
itself (its returned `port_translations`) always satisfy the full
invariant. -/
theorem c6_amended_invariant :
    (∀ (cp : Int) (ops : List PMOp) (kv : Int × Int),
      kv ∈ GetAllMappedPorts (runOps (initPortManager cp) ops) →
      kv = (VM_PORT_FOR_CONTAINER, cp) ∨ ValidEntry kv) ∧
    (∀ (s : PortManager) (ports : List String) (kv : Int × Int),
      (Add s ports).2.2 = none → kv ∈ (Add s ports).2.1 → ValidEntry kv) := by
  constructor
  · intro cp ops kv hkv
    rw [mem_getAllMappedPorts] at hkv
    exact runOps_valid ops (initPortManager cp) cp rfl (by simp [initPortManager]) kv hkv
  · intro s ports kv hnone hkv
    exact add_translations_valid s ports hnone kv hkv

/-- C6 witness: both clauses of the amended invariant at concrete inputs —
a committed entry reached through a sequence including a render, and an
entry committed by a successful `Add` batch. -/
theorem c6_witness :
    (((9000 : Int), (9001 : Int)) = (VM_PORT_FOR_CONTAINER, (8080 : Int)) ∨
      ValidEntry (9000, 9001)) ∧
    ValidEntry (9000, 9001) :=
  ⟨c6_amended_invariant.1 8080 [PMOp.add ["9000:9001"], PMOp.renderPublish] (9000, 9001)
      (by decide),
   c6_amended_invariant.2 defaultPortManager ["9000:9001"] (9000, 9001)
      (by decide) (by decide)⟩

/-- C7: in the rendered publish map, the synthetic serving-port entry takes
precedence over a committed mapping of the same host port: if the committed
mapping maps `VM_PORT_FOR_CONTAINER` to `v`, the map that the publish string
is rendered from maps `VM_PORT_FOR_CONTAINER` to the construction-time
`container_port` (not to `v` when they differ), and keeps every other
committed entry. -/
theorem c7_serving_port_precedence : ∀ (s : PortManager) (v : Int),
    PyDictWF s.port_mappings →
    pyGet s.port_mappings VM_PORT_FOR_CONTAINER = some v →
    (pyGet (publishPortMap s) VM_PORT_FOR_CONTAINER = some s.container_port ∧
     (v ≠ s.container_port → (VM_PORT_FOR_CONTAINER, v) ∉ publishPortMap s) ∧
     (∀ kv ∈ s.port_mappings, kv.1 ≠ VM_PORT_FOR_CONTAINER → kv ∈ publishPortMap s) ∧
     (BuildDockerPublishArgumentString s).2 = buildPublishString (publishPortMap s)) := by
  intro s v hwf hget
  have hne : s.port_mappings ≠ [] := pyGet_some_ne_nil _ _ _ hget
  have hGA : GetAllMappedPorts s = s.port_mappings := by
    unfold GetAllMappedPorts; rw [if_neg hne]
  refine ⟨pyGet_insert_self _ _ _, ?_, ?_, rfl⟩
  · intro hvne
    unfold publishPortMap
    rw [hGA]
    exact not_mem_pyInsert_wf _ _ _ _ hwf hvne
  · intro kv hkv hkne
    unfold publishPortMap
    rw [hGA]
    exact mem_pyInsert_of_ne _ _ _ _ hkv hkne

/-- C7 witness: a state mapping host port 8080 to 9090 with container port
8080: the publish map carries `8080 → 8080`, not `8080 → 9090`. -/
theorem c7_witness :
    pyGet (publishPortMap ⟨[], [(8080, 9090)], 8080⟩) VM_PORT_FOR_CONTAINER = some 8080 ∧
    (VM_PORT_FOR_CONTAINER, (9090 : Int)) ∉ publishPortMap ⟨[], [(8080, 9090)], 8080⟩ := by
  have h := c7_serving_port_precedence ⟨[], [(8080, 9090)], 8080⟩ 9090 (by decide) (by decide)
  exact ⟨h.1, h.2.1 (by decide)⟩

/-- C8: the rendered publish string is exactly the concatenation of one
`--publish=HOST:CONTAINER ` token (trailing space included, also on the
last token) per pair of the publish map — the committed mapping with the
synthetic serving-port entry assigned — and on a fresh manager with no
additions it consists of exactly the one synthetic token. -/
theorem c8_publish_string_shape :
    (∀ s : PortManager, (BuildDockerPublishArgumentString s).2 =
        String.join ((publishPortMap s).map publishToken)) ∧
    (BuildDockerPublishArgumentString defaultPortManager).2 = "--publish=8080:8080 " := by
  constructor
  · intro s
    show buildPublishString (publishPortMap s) = _
    unfold buildPublishString
    rw [foldl_publish]
    apply String.ext
    simp [String.data_append]
  · decide

/-- C9: the deployment fragment from `GetReplicaPoolParameters` holds, at
path `template → vmParams → metadata → items`, exactly one item, with key
`gae_publish_ports` and value the string rendered by
`_BuildDockerPublishArgumentString` on the same state. -/
theorem c9_replica_pool_shape : ∀ s : PortManager,
    (GetReplicaPoolParameters s).2.template.vmParams.metadata.items.length = 1 ∧
    (GetReplicaPoolParameters s).2.template.vmParams.metadata.items =
      [⟨"gae_publish_ports", (BuildDockerPublishArgumentString s).2⟩] := by
  intro s
  exact ⟨rfl, rfl⟩

/-- C10: host ports recorded in `used_host_ports` by a failed batch keep
poisoning later batches: whenever `used_host_ports` maps `hp` to `c`, adding
a spec for `hp` with a different container port raises
`InconsistentPortConfigurationError` and commits nothing — and a concrete
failed batch (`9000:9001` followed by the illegal `22:22`) leaves
`9000 → 9001` in `used_host_ports` while `AllMappings` never shows host
9000, so `9000:9002` is later rejected as inconsistent. -/
theorem c10_used_host_ports_persistence :
    (∀ (s : PortManager) (p2 : String) (hp c c2 : Int),
      pyGet s.used_host_ports hp = some c →
      parsePortSpec p2 = some (hp, c2) →
      c ≠ c2 →
      ((Add s [p2]).2.2 = some AddError.inconsistent ∧
       GetAllMappedPorts (Add s [p2]).1 = GetAllMappedPorts s)) ∧
    ((Add defaultPortManager ["9000:9001", "22:22"]).2.2 = some AddError.illegal ∧
     pyGet (Add defaultPortManager ["9000:9001", "22:22"]).1.used_host_ports 9000 =
       some 9001 ∧
     pyGet (GetAllMappedPorts (Add defaultPortManager ["9000:9001", "22:22"]).1) 9000 =
       none ∧
     (Add (Add defaultPortManager ["9000:9001", "22:22"]).1 ["9000:9002"]).2.2 =
       some AddError.inconsistent) := by
  constructor
  · intro s p2 hp c c2 hget hparse hne
    have hc : conflictB s.used_host_ports hp c2 = true :=
      conflictB_true_of_get _ _ _ _ hget hne
    have hAdd : Add s [p2] = (s, pyInsert [] hp c2, some AddError.inconsistent) := by
      rw [Add_single_eq, processSpec_conflict _ _ _ _ _ hparse hc]
    rw [hAdd]
    exact ⟨rfl, rfl⟩
  · exact ⟨by decide, by decide, by decide, by decide⟩

/-- C10 witness: the general clause at a concrete poisoned state. -/
theorem c10_witness :
    (Add ⟨[(9000, 9001)], [], 8080⟩ ["9000:9002"]).2.2 = some AddError.inconsistent ∧
    GetAllMappedPorts (Add ⟨[(9000, 9001)], [], 8080⟩ ["9000:9002"]).1 =
      GetAllMappedPorts ⟨[(9000, 9001)], [], 8080⟩ :=
  c10_used_host_ports_persistence.1 ⟨[(9000, 9001)], [], 8080⟩ "9000:9002" 9000 9001 9002
    (by decide) (by decide) (by decide)

end AppEnginePorts
